import Mathlib

/-!
Shallow embedding of `src/cmd/grv/ref_view.go` (the grv ref view): the
rendered-ref row model, the filter chain (`renderedRefList`), the group
generators, regeneration, navigation, selection and the filter-management
commands, together with proofs of the specification claims about them.

Go machine details modelled as follows: `*Oid` becomes `Option String`
(`none` = nil pointer, the string being the oid's hex representation);
`*refList` back-pointers become an index into the view's `refLists` slice
(`none` = nil); slice indexing becomes `List.get?`, where `none` models the
Go index-out-of-range panic; `uint` values that only count become `Nat`.
-/

set_option autoImplicit false

namespace GrvRefView

/-- `RenderedRefType` from ref_view.go lines 14-26: the kind of a rendered row. -/
inductive RenderedRefType where
  | RvLocalBranchGroup
  | RvRemoteBranchGroup
  | RvLocalBranch
  | RvRemoteBranch
  | RvTagGroup
  | RvTag
  | RvSpace
  | RvLoading
  deriving DecidableEq, Repr

/-- `RenderedRef` (lines 47-53): one display row. `oid` is the `*Oid` field
(`none` = nil); `refList` is the `*refList` back pointer, modelled as an index
into the view's `refLists` slice (`none` = nil); `refNum` is the 1-based index
in group (`0` = Go zero value, as for headers and spacers). -/
structure RenderedRef where
  value : String
  oid : Option String
  renderedRefType : RenderedRefType
  refList : Option Nat
  refNum : Nat
  deriving DecidableEq, Repr

/-- A compiled `RefFilter`'s `MatchesFilter` method, as a predicate on rows. -/
def RefFilter : Type := RenderedRef → Bool

/-- `renderedRefList` (lines 65-69): a link of the filter chain. `refFilter`
is the optional filter (`none` = nil, the head link), `renderedRefs` the rows
collected by this link, `child` the next link (`none` = nil = this is the tail). -/
inductive renderedRefList where
  | node (refFilter : Option RefFilter) (renderedRefs : List RenderedRef)
      (child : Option renderedRefList)

namespace renderedRefList

/-- `newFilteredRenderedRefList` (lines 75-79): a fresh link holding the filter. -/
def newFilteredRenderedRefList (refFilter : Option RefFilter) : renderedRefList :=
  .node refFilter [] none

/-- `newRenderedRefList` (lines 71-73): the head link, no filter. -/
def newRenderedRefList : renderedRefList :=
  newFilteredRenderedRefList none

/-- The nil-check-and-match guard of `Add` (line 83): a row passes when the
link has no filter or the filter matches it. -/
def passes (refFilter : Option RefFilter) (renderedRef : RenderedRef) : Bool :=
  match refFilter with
  | none => true
  | some f => f renderedRef

/-- `Add` (lines 82-92): if the row passes this link's filter it is appended to
the collected rows and forwarded to the child link; otherwise it is dropped. -/
def Add : renderedRefList → RenderedRef → renderedRefList
  | .node f rs none, r =>
      if passes f r then .node f (rs ++ [r]) none else .node f rs none
  | .node f rs (some c), r =>
      if passes f r then .node f (rs ++ [r]) (some (c.Add r)) else .node f rs (some c)

/-- `AddChild` (lines 95-105): walk to the tail; attach the new set there and
backfill it with every row the old tail holds, in order. -/
def AddChild : renderedRefList → renderedRefList → renderedRefList
  | .node f rs none, newSet => .node f rs (some (rs.foldl Add newSet))
  | .node f rs (some c), newSet => .node f rs (some (c.AddChild newSet))

/-- `RemoveChild` (lines 108-119): remove the last link of the chain; the
returned Bool is whether a link was removed. -/
def RemoveChild : renderedRefList → Bool × renderedRefList
  | .node f rs none => (false, .node f rs none)
  | .node f rs (some (.node _ _ none)) => (true, .node f rs none)
  | .node f rs (some (.node cf crs (some cc))) =>
      let res := RemoveChild (.node cf crs (some cc))
      (res.1, .node f rs (some res.2))

/-- `Clear` (lines 127-133): clear the collected rows of every link. -/
def Clear : renderedRefList → renderedRefList
  | .node f _ none => .node f [] none
  | .node f _ (some c) => .node f [] (some c.Clear)

/-- `RenderedRefs` (lines 136-142): the tail link's collected rows — the rows
currently displayed. -/
def RenderedRefs : renderedRefList → List RenderedRef
  | .node _ rs none => rs
  | .node _ _ (some c) => c.RenderedRefs

/-- `Children` (lines 145-153): the number of links below this one, i.e. the
number of installed filters when called on the head. -/
def Children : renderedRefList → Nat
  | .node _ _ none => 0
  | .node _ _ (some c) => 1 + c.Children

end renderedRefList

/-- A `*Branch` value from the external `RepoData` provider: a name and oid. -/
structure Branch where
  name : String
  oid : String
  deriving DecidableEq, Repr

/-- A `*Tag` value from the external `RepoData` provider: a name and oid. -/
structure Tag where
  name : String
  oid : String
  deriving DecidableEq, Repr

/-- State of the external `RepoData` collaborator, as observed through its
synchronous accessors: `Branches() -> (local, remote, loading)`,
`LocalTags() -> (tags, loading)` and `Head() -> (oid, branch)` where the
branch is `none` when HEAD is detached. -/
structure RepoDataState where
  localBranches : List Branch
  remoteBranches : List Branch
  branchesLoading : Bool
  tags : List Tag
  tagsLoading : Bool
  headOid : String
  headBranch : Option Branch
  deriving Repr

/-- Which generator function a `refList` was constructed with in `NewRefView`
(lines 182-199): `generateBranches` for the two branch groups, `generateTags`
for the tag group. -/
inductive GeneratorId where
  | branches
  | tags
  deriving DecidableEq, Repr

/-- `refList` (lines 39-44): one collapsible group. The Go `renderer` function
pointer is modelled by `renderer : GeneratorId`. -/
structure refList where
  name : String
  expanded : Bool
  renderer : GeneratorId
  renderedRefType : RenderedRefType
  deriving DecidableEq, Repr

/-- The fixed `refLists` slice built in `NewRefView` (lines 182-199): Branches
(expanded), Remote Branches, Tags. -/
def initialRefLists : List refList :=
  [ { name := "Branches", expanded := true, renderer := .branches,
      renderedRefType := .RvLocalBranchGroup },
    { name := "Remote Branches", expanded := false, renderer := .branches,
      renderedRefType := .RvRemoteBranchGroup },
    { name := "Tags", expanded := false, renderer := .tags,
      renderedRefType := .RvTagGroup } ]

/-- `getDetachedHeadDisplayValue` (lines 285-287):
`fmt.Sprintf("HEAD detached at %s", oid.String()[0:7])`. The Go slice
`[0:7]` requires the oid string to have at least 7 bytes (always true for a
40-hex-digit oid); it is modelled as taking the first 7 characters. -/
def getDetachedHeadDisplayValue (oid : String) : String :=
  "HEAD detached at " ++ String.mk (oid.data.take 7)

/-- `isSelectableRenderedRef` (lines 289-291): every kind but Spacer/Loading. -/
def isSelectableRenderedRef (renderedRefType : RenderedRefType) : Bool :=
  renderedRefType != .RvSpace && renderedRefType != .RvLoading

/-- The `"   Loading..."` row a generator emits while its backing collection
is loading (lines 464-467 and 511-514). -/
def loadingRenderedRef : RenderedRef :=
  { value := "   Loading...", oid := none, renderedRefType := .RvLoading,
    refList := none, refNum := 0 }

/-- One branch entry row (lines 496-501):
`fmt.Sprintf("   %s", branch.name)` with the branch's oid and 1-based number. -/
def branchRenderedRef (branchRenderedRefType : RenderedRefType) (branchNum : Nat)
    (branch : Branch) : RenderedRef :=
  { value := "   " ++ branch.name, oid := some branch.oid,
    renderedRefType := branchRenderedRefType, refList := none, refNum := branchNum }

/-- The `for _, branch := range branches` loop of `generateBranches`
(lines 495-504): number the branches consecutively starting at `branchNum`. -/
def numberBranches (branchRenderedRefType : RenderedRefType) (branchNum : Nat) :
    List Branch → List RenderedRef
  | [] => []
  | branch :: rest =>
      branchRenderedRef branchRenderedRefType branchNum branch ::
        numberBranches branchRenderedRefType (branchNum + 1) rest

/-- The synthetic detached-HEAD row (lines 480-489):
`fmt.Sprintf("   %s", getDetachedHeadDisplayValue(head))`, carrying the head
oid, kind RvLocalBranch, and branch number 1. -/
def detachedHeadRenderedRef (headOid : String) : RenderedRef :=
  { value := "   " ++ getDetachedHeadDisplayValue headOid, oid := some headOid,
    renderedRefType := .RvLocalBranch, refList := none, refNum := 1 }

/-- `generateBranches` (lines 460-505), as the ordered list of rows it passes
to `renderedRefs.Add`: one Loading row while branches load; otherwise, for the
local group, the synthetic detached-HEAD row numbered 1 when `Head()` reports
no branch, then the local branches numbered consecutively; for the remote
group, the remote branches numbered from 1. -/
def generateBranches (repoData : RepoDataState) (rl : refList) : List RenderedRef :=
  if repoData.branchesLoading then [loadingRenderedRef]
  else if rl.renderedRefType = .RvLocalBranchGroup then
    match repoData.headBranch with
    | none =>
        detachedHeadRenderedRef repoData.headOid ::
          numberBranches .RvLocalBranch 2 repoData.localBranches
    | some _ => numberBranches .RvLocalBranch 1 repoData.localBranches
  else numberBranches .RvRemoteBranch 1 repoData.remoteBranches

/-- The `for tagIndex, tag := range tags` loop of `generateTags`
(lines 519-526), numbering from `start` (the loop uses `tagIndex + 1`). -/
def numberTags (start : Nat) : List Tag → List RenderedRef
  | [] => []
  | tag :: rest =>
      { value := "   " ++ tag.name, oid := some tag.oid,
        renderedRefType := .RvTag, refList := none, refNum := start } ::
        numberTags (start + 1) rest

/-- `generateTags` (lines 507-527), as the ordered list of rows it passes to
`renderedRefs.Add`. -/
def generateTags (repoData : RepoDataState) : List RenderedRef :=
  if repoData.tagsLoading then [loadingRenderedRef]
  else numberTags 1 repoData.tags

/-- Dispatch on the `renderer` function pointer stored in a `refList`
(`refList.renderer(refView, refList, renderedRefs)`, line 448). -/
def runRenderer (repoData : RepoDataState) (rl : refList) : List RenderedRef :=
  match rl.renderer with
  | .branches => generateBranches repoData rl
  | .tags => generateTags repoData

/-- The group-header row appended at lines 441-445:
`fmt.Sprintf("  [%v] %v", expandChar, refList.name)` where `expandChar` is
`"-"` when expanded and `"+"` when collapsed; it carries the group's kind and
a back pointer to the group (modelled as its index). -/
def headerRenderedRef (idx : Nat) (rl : refList) : RenderedRef :=
  { value := "  [" ++ (if rl.expanded then "-" else "+") ++ "] " ++ rl.name,
    oid := none, renderedRefType := rl.renderedRefType,
    refList := some idx, refNum := 0 }

/-- The empty Spacer row appended between groups (lines 452-455). -/
def spacerRenderedRef : RenderedRef :=
  { value := "", oid := none, renderedRefType := .RvSpace,
    refList := none, refNum := 0 }

/-- The `for refIndex, refList := range refView.refLists` loop of
`generateRenderedRefs` (lines 435-457), as the ordered list of rows passed to
`renderedRefs.Add`: header row, then the group's rows when expanded, then a
Spacer unless this is the last group. `idx` is the current group index. -/
def generatedRowsFrom (repoData : RepoDataState) (idx : Nat) :
    List refList → List RenderedRef
  | [] => []
  | rl :: rest =>
      headerRenderedRef idx rl ::
        ((if rl.expanded then runRenderer repoData rl else []) ++
          (if rest.isEmpty then [] else [spacerRenderedRef]) ++
          generatedRowsFrom repoData (idx + 1) rest)

/-- All rows `generateRenderedRefs` feeds to the chain, in order. -/
def generatedRows (repoData : RepoDataState) (refLists : List refList) :
    List RenderedRef :=
  generatedRowsFrom repoData 0 refLists

/-- A registered `RefListener`'s `OnRefSelect(refName, oid) error` method:
`none` = nil error (success), `some msg` = a returned error. -/
def RefListener : Type := String → Option String → Option String

/-- The part of the external `ViewPos` state the in-scope code reads and
writes: `ActiveRowIndex()` / `SetActiveRowIndex()`. -/
structure ViewPos where
  activeRowIndex : Nat
  deriving DecidableEq, Repr

/-- `RefView` (lines 156-168) restricted to the state the verified operations
touch: the data provider snapshot, the groups, the listeners, the filter
chain and the cursor. (The mutex, dimensions, handler table and search
collaborator carry no row/cursor state.) -/
structure RefView where
  repoData : RepoDataState
  refLists : List refList
  refListeners : List RefListener
  renderedRefs : renderedRefList
  viewPos : ViewPos

/-- `generateRenderedRefs` (lines 430-458): clear every link of the chain,
then feed the generated rows — group headers, expanded groups' rows, spacers —
one by one into the chain head via `Add`. -/
def RefView.generateRenderedRefs (refView : RefView) : RefView :=
  { refView with
      renderedRefs :=
        (generatedRows refView.repoData refView.refLists).foldl
          renderedRefList.Add refView.renderedRefs.Clear }

/-- `strings.TrimLeft(value, " ")` at line 770: drop every leading space. -/
def trimLeftSpaces (s : String) : String :=
  String.mk (s.data.dropWhile (fun c => c = ' '))

/-- `notifyRefListeners` (lines 298-308): call each listener in registration
order; the loop breaks at the first error, which is returned. The first
component counts how many listeners were actually invoked. -/
def notifyRefListeners (refListeners : List RefListener) (refName : String)
    (oid : Option String) : Nat × Option String :=
  match refListeners with
  | [] => (0, none)
  | refListener :: rest =>
      match refListener refName oid with
      | some e => (1, some e)
      | none =>
          let res := notifyRefListeners rest refName oid
          (res.1 + 1, res.2)

/-- Observable outcome of `selectRef`: `outOfRange` models the Go
index-out-of-range panic at line 760, `nilDeref` the nil `refList` pointer
dereference at line 764, `toggled` the group header branch, `notified` the
entry branch (with the number of listeners invoked and the propagated error),
`ignored` the logged default branch. -/
inductive SelectOutcome where
  | outOfRange
  | nilDeref
  | toggled
  | notified (invoked : Nat) (err : Option String)
  | ignored
  deriving Repr

/-- `selectRef` (lines 758-779): read the row at the cursor (unchecked in Go);
on a group header toggle that group's `expanded` flag and regenerate; on an
entry row notify the listeners with the whitespace-stripped text and the oid,
propagating the first error; otherwise log and ignore. -/
def selectRef (refView : RefView) : RefView × SelectOutcome :=
  match (refView.renderedRefs.RenderedRefs).get? refView.viewPos.activeRowIndex with
  | none => (refView, .outOfRange)
  | some renderedRef =>
      match renderedRef.renderedRefType with
      | .RvLocalBranchGroup | .RvRemoteBranchGroup | .RvTagGroup =>
          match renderedRef.refList with
          | none => (refView, .nilDeref)
          | some idx =>
              let refView1 :=
                { refView with
                    refLists := refView.refLists.mapIdx (fun i (rl : refList) =>
                      if i = idx then { rl with expanded := !rl.expanded } else rl) }
              (refView1.generateRenderedRefs, .toggled)
      | .RvLocalBranch | .RvRemoteBranch | .RvTag =>
          let res := notifyRefListeners refView.refListeners
            (trimLeftSpaces renderedRef.value) renderedRef.oid
          (refView, .notified res.1 res.2)
      | _ => (refView, .ignored)

/-- An element of `Action.Args`: either a string or a value of another type
(the type assertion `action.Args[0].(string)` at line 786 distinguishes them). -/
inductive CommandArg where
  | str (s : String)
  | other
  deriving Repr

/-- Observable outcome of the filter commands: `err` is a non-nil returned
error, `reportedErrors` models `channels.ReportErrors`, `status` models
`channels.ReportStatus`. -/
inductive CommandOutcome where
  | err (msg : String)
  | reportedErrors (errs : List String)
  | status (msg : String)
  deriving Repr

/-- `addRefFilter` (lines 781-808). `CreateRefFilter` is the external filter
compiler, passed as `compile`, returning the compiled predicate and a list of
error messages. -/
def addRefFilter (compile : String → RefFilter × List String)
    (refView : RefView) (args : List CommandArg) : RefView × CommandOutcome :=
  match args with
  | [] => (refView, .err "Expected filter query argument")
  | .other :: _ => (refView, .err "Expected filter query argument to have type string")
  | .str query :: _ =>
      let res := compile query
      if res.2.length > 0 then (refView, .reportedErrors res.2)
      else
        let beforeRenderedRefNum := refView.renderedRefs.RenderedRefs.length
        let chain := refView.renderedRefs.AddChild
          (renderedRefList.newFilteredRenderedRefList (some res.1))
        let afterRenderedRefNum := chain.RenderedRefs.length
        ({ refView with renderedRefs := chain },
          .status (if afterRenderedRefNum < beforeRenderedRefNum then
            "Filter applied" else "Filter had no effect"))

/-- `removeRefFilter` (lines 810-818). -/
def removeRefFilter (refView : RefView) : RefView × CommandOutcome :=
  let res := refView.renderedRefs.RemoveChild
  ({ refView with renderedRefs := res.2 },
    .status (if res.1 then "Removed ref filter" else "No ref filter applied to remove"))

/-- `renderFooter` (lines 381-428): the footer string. `""` means no footer is
set (the `footer != ""` guard at line 423). -/
def renderFooter (refView : RefView) (selectedRenderedRef : RenderedRef) : String :=
  let filters := refView.renderedRefs.Children
  if filters > 0 then
    toString filters ++ " filter" ++ (if filters > 1 then "s" else "") ++ " applied"
  else
    match selectedRenderedRef.renderedRefType with
    | .RvLocalBranchGroup =>
        if refView.repoData.branchesLoading then "Branches: Loading..."
        else "Branches: " ++ toString refView.repoData.localBranches.length
    | .RvRemoteBranchGroup =>
        if refView.repoData.branchesLoading then "Remote Branches: Loading..."
        else "Remote Branches: " ++ toString refView.repoData.remoteBranches.length
    | .RvLocalBranch =>
        "Branch " ++ toString selectedRenderedRef.refNum ++ " of " ++
          toString refView.repoData.localBranches.length
    | .RvRemoteBranch =>
        "Remote Branch " ++ toString selectedRenderedRef.refNum ++ " of " ++
          toString refView.repoData.remoteBranches.length
    | .RvTagGroup =>
        if refView.repoData.tagsLoading then "Tags: Loading"
        else "Tags: " ++ toString refView.repoData.tags.length
    | .RvTag =>
        "Tag " ++ toString selectedRenderedRef.refNum ++ " of " ++
          toString refView.repoData.tags.length
    | _ => ""

/-- `Render` (lines 311-363), restricted to its reads of the guarded view
state: drawing the visible rows and border touches only the external
`RenderWindow`; the state-relevant step is the unchecked access
`renderedRefs[viewPos.ActiveRowIndex()]` at line 351, whose result feeds
`renderFooter`. `none` models the index-out-of-range panic. -/
def Render (refView : RefView) : Option String :=
  match (refView.renderedRefs.RenderedRefs).get? refView.viewPos.activeRowIndex with
  | none => none
  | some selectedRenderedRef => some (renderFooter refView selectedRenderedRef)

/-- Whether the row at index `i` exists and is selectable. The Go navigation
loops read `renderedRefs[activeRowIndex]` without a bounds check (their
callers keep the index in range); an out-of-range index counts as not
selectable here. -/
def isSelectableAt (renderedRefs : List RenderedRef) (i : Nat) : Bool :=
  match renderedRefs.get? i with
  | some r => isSelectableRenderedRef r.renderedRefType
  | none => false

/-- The `for activeRowIndex > 0` scan of `moveUpRef` (lines 626-634): walk
down from `i`, stopping at the first selectable index or at 0. -/
def scanUp (renderedRefs : List RenderedRef) : Nat → Nat
  | 0 => 0
  | i + 1 => if isSelectableAt renderedRefs (i + 1) then i + 1 else scanUp renderedRefs i

/-- `moveUpRef` (lines 613-645): from a nonzero cursor, scan upward from
`index - 1` for a selectable row; move only when the scan lands on one. -/
def moveUpRef (refView : RefView) : RefView :=
  if refView.viewPos.activeRowIndex = 0 then refView
  else
    let renderedRefs := refView.renderedRefs.RenderedRefs
    let activeRowIndex := scanUp renderedRefs (refView.viewPos.activeRowIndex - 1)
    if isSelectableAt renderedRefs activeRowIndex then
      { refView with viewPos := { activeRowIndex := activeRowIndex } }
    else refView

/-- The `for activeRowIndex < renderedRefNum-1` scan of `moveDownRef`
(lines 661-669): walk up from `i`, stopping at the first selectable index or
at `renderedRefNum - 1`. -/
def scanDown (renderedRefs : List RenderedRef) (renderedRefNum i : Nat) : Nat :=
  if i < renderedRefNum - 1 then
    if isSelectableAt renderedRefs i then i
    else scanDown renderedRefs renderedRefNum (i + 1)
  else i
  termination_by renderedRefNum - i
  decreasing_by omega

/-- `moveDownRef` (lines 647-680): from a cursor strictly before the last row,
scan downward from `index + 1` for a selectable row; move only when the scan
lands on one. -/
def moveDownRef (refView : RefView) : RefView :=
  let renderedRefs := refView.renderedRefs.RenderedRefs
  let renderedRefNum := renderedRefs.length
  if renderedRefNum = 0 ∨ ¬ refView.viewPos.activeRowIndex < renderedRefNum - 1 then
    refView
  else
    let activeRowIndex := scanDown renderedRefs renderedRefNum
      (refView.viewPos.activeRowIndex + 1)
    if isSelectableAt renderedRefs activeRowIndex then
      { refView with viewPos := { activeRowIndex := activeRowIndex } }
    else refView

/-- The `for _, branch := range localBranches` loop of the `LoadBranches`
completion callback (lines 238-247): the number of local branches before the
first one named `name` (all of them when none matches). -/
def branchOffset : List Branch → String → Nat
  | [], _ => 0
  | branch :: rest, name =>
      if branch.name = name then 0 else 1 + branchOffset rest name

/-- The `LoadBranches` completion callback (lines 228-253): regenerate, then
set the cursor to 1 when HEAD is detached, and otherwise to 1 plus the number
of local branches preceding the head branch. -/
def branchesLoadedCallback (refView : RefView) : RefView :=
  let refView1 := refView.generateRenderedRefs
  let activeRowIndex :=
    match refView1.repoData.headBranch with
    | none => 1
    | some headBranch => 1 + branchOffset refView1.repoData.localBranches headBranch.name
  { refView1 with viewPos := { activeRowIndex := activeRowIndex } }

/-- The `LoadLocalTags` completion callback (lines 257-266): regenerate only;
the cursor is not touched. -/
def tagsLoadedCallback (refView : RefView) : RefView :=
  refView.generateRenderedRefs

/-- The filters installed along the chain, head first. -/
def renderedRefList.allFilters : renderedRefList → List RefFilter
  | .node none _ none => []
  | .node (some f) _ none => [f]
  | .node none _ (some c) => c.allFilters
  | .node (some f) _ (some c) => f :: c.allFilters

/-- Whether a row passes every filter in the list. -/
def passesAll (filters : List RefFilter) (r : RenderedRef) : Bool :=
  filters.all (fun f => f r)

/-- The rows collected by the head link of the chain. -/
def renderedRefList.headRenderedRefs : renderedRefList → List RenderedRef
  | .node _ rs _ => rs

/-- The filter of the head link of the chain (always `none` for a view chain,
which is rooted at `newRenderedRefList`). -/
def renderedRefList.headFilter : renderedRefList → Option RefFilter
  | .node f _ _ => f

/-- Whether the row at the cursor exists and is of a selectable kind. -/
def selectedRowSelectable (refView : RefView) : Bool :=
  isSelectableAt refView.renderedRefs.RenderedRefs refView.viewPos.activeRowIndex

/-- The entry (leaf) row kinds: local branch, remote branch, tag. -/
def isEntryRef (k : RenderedRefType) : Prop :=
  k = .RvLocalBranch ∨ k = .RvRemoteBranch ∨ k = .RvTag

/-- A concrete `RepoData` snapshot: branches finished loading with no local
and no remote branches, HEAD on the named branch `master`, tags still
loading. This is the provider state the `LoadBranches` callback observes in a
repository with an unborn or pruned branch list. -/
def repoDataNoLocalBranches : RepoDataState :=
  { localBranches := [], remoteBranches := [], branchesLoading := false,
    tags := [], tagsLoading := true, headOid := "abc1234def",
    headBranch := some { name := "master", oid := "abc1234def" } }

/-- A freshly constructed view (empty chain, cursor at 0) over
`repoDataNoLocalBranches`. -/
def exampleRefView : RefView :=
  { repoData := repoDataNoLocalBranches, refLists := initialRefLists,
    refListeners := [], renderedRefs := renderedRefList.newRenderedRefList,
    viewPos := { activeRowIndex := 0 } }

/-- `exampleRefView` after one regeneration: the cursor (index 0) rests on the
Branches group header, a selectable row. -/
def exampleSelectableRefView : RefView :=
  exampleRefView.generateRenderedRefs

/-- A `RepoData` snapshot with everything loaded: one local branch, one
remote branch, one tag. -/
def repoDataLoaded : RepoDataState :=
  { localBranches := [{ name := "master", oid := "abc1234def" }],
    remoteBranches := [{ name := "origin/master", oid := "abc1234def" }],
    branchesLoading := false,
    tags := [{ name := "v1.0", oid := "ffff000011" }], tagsLoading := false,
    headOid := "abc1234def",
    headBranch := some { name := "master", oid := "abc1234def" } }

/-- A filter predicate that rejects exactly the non-selectable (Spacer and
Loading) rows. -/
def rejectSpacersFilter : RefFilter :=
  fun r => isSelectableRenderedRef r.renderedRefType

/-- A view over `repoDataLoaded` whose chain has one installed filter link
holding `rejectSpacersFilter`. -/
def exampleFilteredRefView : RefView :=
  { repoData := repoDataLoaded, refLists := initialRefLists, refListeners := [],
    renderedRefs :=
      .node none [] (some (.node (some rejectSpacersFilter) [] none)),
    viewPos := { activeRowIndex := 0 } }

/-- A concrete entry row, as the local-branches generator renders `master`. -/
def entryRow : RenderedRef :=
  { value := "   master", oid := some "abc1234def",
    renderedRefType := .RvLocalBranch, refList := none, refNum := 1 }

/-- A listener whose `OnRefSelect` always succeeds. -/
def okListener : RefListener := fun _ _ => none

/-- A listener whose `OnRefSelect` always fails with a fixed error. -/
def failListener : RefListener := fun _ _ => some "listener failed"

/-- A view whose visible rows hold exactly `entryRow` (cursor on it) and with
three registered listeners, the middle one failing. -/
def exampleEntryRefView : RefView :=
  { repoData := repoDataLoaded, refLists := initialRefLists,
    refListeners := [okListener, failListener, okListener],
    renderedRefs := .node none [entryRow] none,
    viewPos := { activeRowIndex := 0 } }

/-- A filter compiler that always succeeds with an accept-everything filter. -/
def exampleCompile : String → RefFilter × List String :=
  fun _ => (fun _ => true, [])

/-- A `RepoData` snapshot with a detached HEAD at oid `abc1234def5678` and
one named local branch. -/
def repoDataDetached : RepoDataState :=
  { localBranches := [{ name := "feature", oid := "ffff000011" }],
    remoteBranches := [], branchesLoading := false,
    tags := [], tagsLoading := false, headOid := "abc1234def5678",
    headBranch := none }

/-- The local-branches group as constructed in `NewRefView`, expanded. -/
def localBranchesGroup : refList :=
  { name := "Branches", expanded := true, renderer := .branches,
    renderedRefType := .RvLocalBranchGroup }

namespace renderedRefList

theorem Add_allFilters : ∀ (c : renderedRefList) (r : RenderedRef),
    (c.Add r).allFilters = c.allFilters
  | .node f rs none, r => by
      by_cases h : passes f r = true <;>
        cases f <;> simp_all [Add, allFilters]
  | .node f rs (some c), r => by
      by_cases h : passes f r = true <;>
        cases f <;> simp_all [Add, allFilters, Add_allFilters c r]

theorem Add_RenderedRefs : ∀ (c : renderedRefList) (r : RenderedRef),
    (c.Add r).RenderedRefs =
      c.RenderedRefs ++ (if passesAll c.allFilters r then [r] else [])
  | .node f rs none, r => by
      by_cases h : passes f r = true <;>
        cases f <;> simp_all [Add, allFilters, RenderedRefs, passesAll, passes]
  | .node f rs (some c), r => by
      by_cases h : passes f r = true <;>
        cases f <;>
          simp_all [Add, allFilters, RenderedRefs, passesAll, passes,
            Add_RenderedRefs c r]

theorem Clear_allFilters : ∀ (c : renderedRefList), c.Clear.allFilters = c.allFilters
  | .node f rs none => by cases f <;> simp [Clear, allFilters]
  | .node f rs (some c) => by
      cases f <;> simp [Clear, allFilters, Clear_allFilters c]

theorem Clear_RenderedRefs : ∀ (c : renderedRefList), c.Clear.RenderedRefs = []
  | .node f rs none => by simp [Clear, RenderedRefs]
  | .node f rs (some c) => by simp [Clear, RenderedRefs, Clear_RenderedRefs c]

theorem foldl_Add_RenderedRefs :
    ∀ (rows : List RenderedRef) (c : renderedRefList),
      (rows.foldl Add c).RenderedRefs =
        c.RenderedRefs ++ rows.filter (passesAll c.allFilters)
  | [], c => by simp
  | r :: rows, c => by
      rw [List.foldl_cons, foldl_Add_RenderedRefs rows (c.Add r), Add_allFilters,
        Add_RenderedRefs]
      by_cases h : passesAll c.allFilters r = true <;>
        simp [h, List.filter_cons]

theorem Add_headFilter : ∀ (c : renderedRefList) (r : RenderedRef),
    (c.Add r).headFilter = c.headFilter
  | .node f rs none, r => by
      by_cases h : passes f r = true <;> simp_all [Add, headFilter]
  | .node f rs (some c), r => by
      by_cases h : passes f r = true <;> simp_all [Add, headFilter]

theorem Add_headRenderedRefs : ∀ (c : renderedRefList) (r : RenderedRef),
    (c.Add r).headRenderedRefs =
      c.headRenderedRefs ++ (if passes c.headFilter r then [r] else [])
  | .node f rs none, r => by
      by_cases h : passes f r = true <;>
        simp_all [Add, headFilter, headRenderedRefs]
  | .node f rs (some c), r => by
      by_cases h : passes f r = true <;>
        simp_all [Add, headFilter, headRenderedRefs]

theorem Clear_headFilter : ∀ (c : renderedRefList), c.Clear.headFilter = c.headFilter
  | .node f rs none => by simp [Clear, headFilter]
  | .node f rs (some c) => by simp [Clear, headFilter]

theorem Clear_headRenderedRefs : ∀ (c : renderedRefList),
    c.Clear.headRenderedRefs = []
  | .node f rs none => by simp [Clear, headRenderedRefs]
  | .node f rs (some c) => by simp [Clear, headRenderedRefs]

theorem foldl_Add_headRenderedRefs :
    ∀ (rows : List RenderedRef) (c : renderedRefList), c.headFilter = none →
      (rows.foldl Add c).headRenderedRefs = c.headRenderedRefs ++ rows
  | [], c, _ => by simp
  | r :: rows, c, h => by
      rw [List.foldl_cons,
        foldl_Add_headRenderedRefs rows (c.Add r) (by rw [Add_headFilter, h]),
        Add_headRenderedRefs, h]
      simp [passes]

theorem foldl_Add_leaf :
    ∀ (rows : List RenderedRef) (f : Option RefFilter) (acc : List RenderedRef),
      rows.foldl Add (.node f acc none) = .node f (acc ++ rows.filter (passes f)) none
  | [], f, acc => by simp
  | r :: rows, f, acc => by
      by_cases h : passes f r = true <;>
        simp_all [Add, List.filter_cons, foldl_Add_leaf rows f]

theorem RemoveChild_AddChild_leaf :
    ∀ (c : renderedRefList) (f : Option RefFilter) (rs0 : List RenderedRef),
      (c.AddChild (.node f rs0 none)).RemoveChild = (true, c)
  | .node g rs none, f, rs0 => by
      rw [AddChild, foldl_Add_leaf, RemoveChild]
  | .node g rs (some c), f, rs0 => by
      have ih := RemoveChild_AddChild_leaf c f rs0
      rw [AddChild]
      rcases hshape : c.AddChild (.node f rs0 none) with ⟨cf, crs, cchild⟩
      rw [hshape] at ih
      cases cchild with
      | none => rw [RemoveChild] at ih; simp at ih
      | some cc => simp [RemoveChild, ih]

theorem AddChild_RenderedRefs : ∀ (c : renderedRefList) (p : RefFilter),
    (c.AddChild (newFilteredRenderedRefList (some p))).RenderedRefs =
      c.RenderedRefs.filter p
  | .node g rs none, p => by
      rw [newFilteredRenderedRefList, AddChild, foldl_Add_leaf]
      simp only [RenderedRefs, List.nil_append]
      exact List.filter_congr (fun a _ => rfl)
  | .node g rs (some c), p => by
      rw [AddChild]
      simp [RenderedRefs, AddChild_RenderedRefs c p]

end renderedRefList

/-- Regeneration leaves the cursor untouched: `generateRenderedRefs`
(lines 430-458) only rebuilds the chain contents. -/
theorem generateRenderedRefs_viewPos (refView : RefView) :
    refView.generateRenderedRefs.viewPos = refView.viewPos := rfl

/-- After regeneration, the visible rows are the generated rows filtered by
every installed filter, uniformly and in order. -/
theorem generateRenderedRefs_RenderedRefs (refView : RefView) :
    refView.generateRenderedRefs.renderedRefs.RenderedRefs =
      (generatedRows refView.repoData refView.refLists).filter
        (passesAll refView.renderedRefs.allFilters) := by
  simp [RefView.generateRenderedRefs, renderedRefList.foldl_Add_RenderedRefs,
    renderedRefList.Clear_RenderedRefs, renderedRefList.Clear_allFilters]

/-- After regeneration, the head link (no filter) holds exactly the generated
rows: the old contents were cleared first. -/
theorem generateRenderedRefs_head (refView : RefView)
    (h : refView.renderedRefs.headFilter = none) :
    refView.generateRenderedRefs.renderedRefs.headRenderedRefs =
      generatedRows refView.repoData refView.refLists := by
  simp [RefView.generateRenderedRefs,
    renderedRefList.foldl_Add_headRenderedRefs _ _
      (by rw [renderedRefList.Clear_headFilter, h]),
    renderedRefList.Clear_headRenderedRefs]

theorem notifyRefListeners_all_ok :
    ∀ (ls : List RefListener) (name : String) (oid : Option String),
      (∀ l ∈ ls, l name oid = none) →
      notifyRefListeners ls name oid = (ls.length, none)
  | [], _, _, _ => rfl
  | l :: ls, name, oid, h => by
      have h0 : l name oid = none := h l (by simp)
      simp [notifyRefListeners, h0,
        notifyRefListeners_all_ok ls name oid (fun x hx => h x (by simp [hx]))]

theorem notifyRefListeners_first_err :
    ∀ (pre : List RefListener) (f : RefListener) (post : List RefListener)
      (name : String) (oid : Option String) (e : String),
      (∀ l ∈ pre, l name oid = none) → f name oid = some e →
      notifyRefListeners (pre ++ f :: post) name oid = (pre.length + 1, some e)
  | [], f, post, name, oid, e, _, hf => by simp [notifyRefListeners, hf]
  | l :: pre, f, post, name, oid, e, hpre, hf => by
      have h0 : l name oid = none := hpre l (by simp)
      have ih := notifyRefListeners_first_err pre f post name oid e
        (fun x hx => hpre x (by simp [hx])) hf
      simp only [List.cons_append, notifyRefListeners, h0, List.append_eq]
      rw [ih]
      simp

theorem moveUpRef_selectable (refView : RefView)
    (h : selectedRowSelectable refView = true) :
    selectedRowSelectable (moveUpRef refView) = true := by
  unfold moveUpRef
  by_cases h0 : refView.viewPos.activeRowIndex = 0
  · simp only [h0, if_pos rfl]
    exact h
  · simp only [if_neg h0]
    by_cases h1 : isSelectableAt refView.renderedRefs.RenderedRefs
        (scanUp refView.renderedRefs.RenderedRefs
          (refView.viewPos.activeRowIndex - 1)) = true
    · simp only [h1, if_pos rfl]
      simpa [selectedRowSelectable] using h1
    · simp only [if_neg h1]
      exact h

theorem moveDownRef_selectable (refView : RefView)
    (h : selectedRowSelectable refView = true) :
    selectedRowSelectable (moveDownRef refView) = true := by
  unfold moveDownRef
  by_cases h0 : refView.renderedRefs.RenderedRefs.length = 0 ∨
      ¬ refView.viewPos.activeRowIndex < refView.renderedRefs.RenderedRefs.length - 1
  · simp only [if_pos h0]
    exact h
  · simp only [if_neg h0]
    by_cases h1 : isSelectableAt refView.renderedRefs.RenderedRefs
        (scanDown refView.renderedRefs.RenderedRefs
          refView.renderedRefs.RenderedRefs.length
          (refView.viewPos.activeRowIndex + 1)) = true
    · simp only [h1, if_pos rfl]
      simpa [selectedRowSelectable] using h1
    · simp only [if_neg h1]
      exact h

/-- C3: for every chain state and every predicate, `AddFilter(p)` (AddChild of
a fresh filtered link) immediately followed by `RemoveFilter()` (RemoveChild)
reports a removal and restores `VisibleRows()` (RenderedRefs) and
`FilterDepth()` (Children) to their exact pre-add values. -/
theorem addFilter_removeFilter_roundTrip (c : renderedRefList) (p : RefFilter) :
    ((c.AddChild (renderedRefList.newFilteredRenderedRefList (some p))).RemoveChild).1
        = true ∧
    ((c.AddChild (renderedRefList.newFilteredRenderedRefList (some p))).RemoveChild).2.RenderedRefs
        = c.RenderedRefs ∧
    ((c.AddChild (renderedRefList.newFilteredRenderedRefList (some p))).RemoveChild).2.Children
        = c.Children := by
  rw [renderedRefList.newFilteredRenderedRefList,
    renderedRefList.RemoveChild_AddChild_leaf c (some p) []]
  exact ⟨rfl, rfl, rfl⟩

/-- C4: installing a filter as the new tail (AddChild with backfill from the
previous tail) turns `VisibleRows()` into an order-preserving subsequence of
its previous value: the new visible rows are exactly the old ones the
predicate passes, hence a sublist. -/
theorem addFilter_visibleRows_sublist (c : renderedRefList) (p : RefFilter) :
    List.Sublist
      ((c.AddChild (renderedRefList.newFilteredRenderedRefList (some p))).RenderedRefs)
      c.RenderedRefs := by
  rw [renderedRefList.AddChild_RenderedRefs]
  exact List.filter_sublist _

/-- C10: regeneration offers every generated row — GroupHeader, Spacer and
Loading rows included — to every installed filter through the one `Add` path:
the visible rows equal the generated rows filtered uniformly by the
conjunction of all installed predicates, so a generated row (of any kind) is
visible exactly when every installed predicate accepts it. -/
theorem regeneration_filters_uniform (refView : RefView) :
    refView.generateRenderedRefs.renderedRefs.RenderedRefs =
      (generatedRows refView.repoData refView.refLists).filter
        (passesAll refView.renderedRefs.allFilters) ∧
    ∀ r ∈ generatedRows refView.repoData refView.refLists,
      (r ∈ refView.generateRenderedRefs.renderedRefs.RenderedRefs ↔
        passesAll refView.renderedRefs.allFilters r = true) := by
  refine ⟨generateRenderedRefs_RenderedRefs refView, ?_⟩
  intro r hr
  rw [generateRenderedRefs_RenderedRefs]
  simp [List.mem_filter, hr]

/-- Witness for C10: with one installed filter that rejects non-selectable
rows, a Spacer row is generated but absent from the visible rows. -/
theorem regeneration_filters_uniform_witness :
    spacerRenderedRef ∈
      generatedRows exampleFilteredRefView.repoData exampleFilteredRefView.refLists ∧
    spacerRenderedRef ∉
      exampleFilteredRefView.generateRenderedRefs.renderedRefs.RenderedRefs := by
  have h := (regeneration_filters_uniform exampleFilteredRefView).2
    spacerRenderedRef (by decide)
  exact ⟨by decide, fun hmem => absurd (h.mp hmem) (by decide)⟩

/-- C2: `Render` and `selectRef` read `renderedRefs[viewPos.ActiveRowIndex()]`
with no bounds check; whenever the visible row list is empty or the active
row index is not below its length, that access is out of range (the modelled
Go panic) — neither an error return nor a skip. -/
theorem render_selectRef_unchecked (refView : RefView)
    (h : refView.renderedRefs.RenderedRefs = [] ∨
      ¬ refView.viewPos.activeRowIndex < refView.renderedRefs.RenderedRefs.length) :
    Render refView = none ∧ (selectRef refView).2 = SelectOutcome.outOfRange := by
  have hnone : (refView.renderedRefs.RenderedRefs).get?
      refView.viewPos.activeRowIndex = none := by
    rcases h with h | h
    · simp [h]
    · exact List.get?_eq_none.mpr (by omega)
  rw [List.get?_eq_getElem?] at hnone
  exact ⟨by simp [Render, hnone], by simp [selectRef, hnone]⟩

/-- Witness for C2: on a freshly constructed view the chain is empty, so the
render-time and select-time accesses are both out of range. -/
theorem render_selectRef_unchecked_witness :
    Render exampleRefView = none ∧
    (selectRef exampleRefView).2 = SelectOutcome.outOfRange :=
  render_selectRef_unchecked exampleRefView (Or.inl rfl)

/-- Counterexample to C1 as stated: regeneration does not re-clamp the
cursor. After the `LoadBranches` completion callback runs over
`repoDataNoLocalBranches` (branches loaded, no local branches, HEAD on
`master`), selectable rows exist, yet the row at the cursor's index is a
Spacer. -/
theorem regeneration_reclamp_counterexample :
    ((branchesLoadedCallback exampleRefView).renderedRefs.RenderedRefs.any
        (fun r => isSelectableRenderedRef r.renderedRefType)) = true ∧
    (((branchesLoadedCallback exampleRefView).renderedRefs.RenderedRefs.get?
        (branchesLoadedCallback exampleRefView).viewPos.activeRowIndex).map
      (fun r => r.renderedRefType)) = some RenderedRefType.RvSpace := by
  constructor
  · decide
  · decide

/-- C1 (amended): single-step navigation (`moveUpRef`, `moveDownRef`) keeps
the cursor on a selectable row whenever it starts on one, but regeneration
performs no re-clamping at all: `generateRenderedRefs` and the tags-loaded
callback leave the cursor untouched, so after a regeneration the cursor can
rest on a Spacer or Loading row. -/
theorem navigation_selectable_regeneration_no_reclamp :
    (∀ refView : RefView,
      refView.generateRenderedRefs.viewPos = refView.viewPos ∧
      (tagsLoadedCallback refView).viewPos = refView.viewPos) ∧
    (∀ refView : RefView, selectedRowSelectable refView = true →
      selectedRowSelectable (moveUpRef refView) = true ∧
      selectedRowSelectable (moveDownRef refView) = true) :=
  ⟨fun _ => ⟨rfl, rfl⟩,
   fun refView h => ⟨moveUpRef_selectable refView h, moveDownRef_selectable refView h⟩⟩

/-- Witness for the amended C1: from a regenerated view whose cursor rests on
the Branches header, moving down lands on a selectable row. -/
theorem navigation_selectable_witness :
    selectedRowSelectable exampleSelectableRefView = true ∧
    selectedRowSelectable (moveDownRef exampleSelectableRefView) = true :=
  ⟨by decide,
   (navigation_selectable_regeneration_no_reclamp.2 exampleSelectableRefView
      (by decide)).2⟩

/-- C5: activating the cursored row. Entry row (branch or tag): every
registered listener is notified in registration order with the row's text
stripped of leading whitespace and its object id — if all succeed, all
`length` listeners run and no error is returned; if a listener fails, no
later listener is notified (exactly `pre.length + 1` run) and that same
error is returned; the view state is unchanged. GroupHeader: the owning
group's `expanded` flag is toggled and the rows are regenerated, and no
listener is notified (outcome `toggled`, not `notified`). -/
theorem selectRef_activation :
    (∀ (refView : RefView) (r : RenderedRef),
        (refView.renderedRefs.RenderedRefs).get? refView.viewPos.activeRowIndex = some r →
        isEntryRef r.renderedRefType →
        (∀ l ∈ refView.refListeners, l (trimLeftSpaces r.value) r.oid = none) →
        selectRef refView =
          (refView, .notified refView.refListeners.length none)) ∧
    (∀ (refView : RefView) (r : RenderedRef) (pre : List RefListener)
        (f : RefListener) (post : List RefListener) (e : String),
        (refView.renderedRefs.RenderedRefs).get? refView.viewPos.activeRowIndex = some r →
        isEntryRef r.renderedRefType →
        refView.refListeners = pre ++ f :: post →
        (∀ l ∈ pre, l (trimLeftSpaces r.value) r.oid = none) →
        f (trimLeftSpaces r.value) r.oid = some e →
        selectRef refView = (refView, .notified (pre.length + 1) (some e))) ∧
    (∀ (refView : RefView) (r : RenderedRef) (idx : Nat),
        (refView.renderedRefs.RenderedRefs).get? refView.viewPos.activeRowIndex = some r →
        (r.renderedRefType = .RvLocalBranchGroup ∨
          r.renderedRefType = .RvRemoteBranchGroup ∨
          r.renderedRefType = .RvTagGroup) →
        r.refList = some idx →
        (selectRef refView).2 = SelectOutcome.toggled ∧
        (selectRef refView).1.refLists =
          refView.refLists.mapIdx (fun i (rl : refList) =>
            if i = idx then { rl with expanded := !rl.expanded } else rl) ∧
        (selectRef refView).1.renderedRefs.RenderedRefs =
          (generatedRows refView.repoData
              (refView.refLists.mapIdx (fun i (rl : refList) =>
                if i = idx then { rl with expanded := !rl.expanded } else rl))).filter
            (passesAll refView.renderedRefs.allFilters)) := by
  refine ⟨?_, ?_, ?_⟩
  · intro refView r hsel hk hall
    rw [List.get?_eq_getElem?] at hsel
    have hn := notifyRefListeners_all_ok refView.refListeners
      (trimLeftSpaces r.value) r.oid hall
    rcases hk with hk | hk | hk <;> simp [selectRef, hsel, hk, hn]
  · intro refView r pre f post e hsel hk hls hpre hf
    rw [List.get?_eq_getElem?] at hsel
    have hn := notifyRefListeners_first_err pre f post
      (trimLeftSpaces r.value) r.oid e hpre hf
    rcases hk with hk | hk | hk <;> simp [selectRef, hsel, hk, hls, hn]
  · intro refView r idx hsel hk href
    rw [List.get?_eq_getElem?] at hsel
    have hred : selectRef refView =
        (RefView.generateRenderedRefs
          { refView with
              refLists := refView.refLists.mapIdx (fun i (rl : refList) =>
                if i = idx then { rl with expanded := !rl.expanded } else rl) },
          SelectOutcome.toggled) := by
      rcases hk with hk | hk | hk <;> simp [selectRef, hsel, hk, href]
    rw [hred]
    exact ⟨rfl, rfl,
      generateRenderedRefs_RenderedRefs
        { refView with
            refLists := refView.refLists.mapIdx (fun i (rl : refList) =>
              if i = idx then { rl with expanded := !rl.expanded } else rl) }⟩

/-- Witness for C5: on a view with listeners [ok, fail, ok] and an entry row
under the cursor, exactly two listeners run and the middle listener's error
is returned. -/
theorem selectRef_activation_witness :
    selectRef exampleEntryRefView =
      (exampleEntryRefView, SelectOutcome.notified 2 (some "listener failed")) :=
  selectRef_activation.2.1 exampleEntryRefView entryRow [okListener] failListener
    [okListener] "listener failed" rfl (Or.inl rfl) rfl
    (by intro l hl; rw [List.mem_singleton] at hl; subst hl; rfl) rfl

/-- C6: `addRefFilter` returns an error exactly when the argument list is
empty or its first argument is not a string; when the compiler reports one or
more errors they are reported to the user, the chain is unchanged and no
error is returned; otherwise the compiled filter is installed as the new tail
and the status is "Filter applied" exactly when the visible row count
strictly decreased, and "Filter had no effect" otherwise. -/
theorem addRefFilter_errors_and_status :
    (∀ (compile : String → RefFilter × List String) (refView : RefView)
        (args : List CommandArg),
        (∃ m, (addRefFilter compile refView args).2 = CommandOutcome.err m) ↔
          (args = [] ∨ args.head? = some CommandArg.other)) ∧
    (∀ (compile : String → RefFilter × List String) (refView : RefView)
        (q : String) (rest : List CommandArg),
        0 < (compile q).2.length →
        addRefFilter compile refView (CommandArg.str q :: rest) =
          (refView, CommandOutcome.reportedErrors (compile q).2)) ∧
    (∀ (compile : String → RefFilter × List String) (refView : RefView)
        (q : String) (rest : List CommandArg),
        (compile q).2 = [] →
        (addRefFilter compile refView (CommandArg.str q :: rest)).1.renderedRefs =
          refView.renderedRefs.AddChild
            (renderedRefList.newFilteredRenderedRefList (some (compile q).1)) ∧
        ((addRefFilter compile refView (CommandArg.str q :: rest)).2 =
            CommandOutcome.status "Filter applied" ↔
          (refView.renderedRefs.AddChild
              (renderedRefList.newFilteredRenderedRefList
                (some (compile q).1))).RenderedRefs.length <
            refView.renderedRefs.RenderedRefs.length) ∧
        ((addRefFilter compile refView (CommandArg.str q :: rest)).2 =
            CommandOutcome.status "Filter had no effect" ↔
          ¬ (refView.renderedRefs.AddChild
              (renderedRefList.newFilteredRenderedRefList
                (some (compile q).1))).RenderedRefs.length <
            refView.renderedRefs.RenderedRefs.length)) := by
  refine ⟨?_, ?_, ?_⟩
  · intro compile refView args
    cases args with
    | nil => simp [addRefFilter]
    | cons a rest =>
      cases a with
      | other => simp [addRefFilter]
      | str q =>
        constructor
        · rintro ⟨m, hm⟩
          by_cases h : (compile q).2.length > 0 <;> simp [addRefFilter, h] at hm
        · rintro (h | h) <;> simp at h
  · intro compile refView q rest h
    simp [addRefFilter, h]
  · intro compile refView q rest herr
    have hz : ¬ (compile q).2.length > 0 := by simp [herr]
    by_cases hlt : (refView.renderedRefs.AddChild
        (renderedRefList.newFilteredRenderedRefList
          (some (compile q).1))).RenderedRefs.length <
        refView.renderedRefs.RenderedRefs.length
    · refine ⟨by simp [addRefFilter, hz], ?_, ?_⟩
      · simp [addRefFilter, hz, hlt]
      · simp only [addRefFilter, hz, if_neg, if_pos hlt, hlt, not_true_eq_false,
          iff_false]
        intro heq
        have : ("Filter applied" : String) = "Filter had no effect" :=
          CommandOutcome.status.inj heq
        exact absurd this (by decide)
    · refine ⟨by simp [addRefFilter, hz], ?_, ?_⟩
      · simp only [addRefFilter, hz, if_neg, if_neg hlt, hlt, iff_false]
        intro heq
        have : ("Filter had no effect" : String) = "Filter applied" :=
          CommandOutcome.status.inj heq
        exact absurd this (by decide)
      · simp [addRefFilter, hz, hlt]

theorem numberBranches_getElem? :
    ∀ (bs : List Branch) (t : RenderedRefType) (s i : Nat),
      (numberBranches t s bs)[i]? = (bs[i]?).map (branchRenderedRef t (s + i))
  | [], t, s, i => by simp [numberBranches]
  | b :: bs, t, s, 0 => by simp [numberBranches]
  | b :: bs, t, s, i + 1 => by
      have h : s + 1 + i = s + (i + 1) := by omega
      simp [numberBranches, numberBranches_getElem? bs t (s + 1) i, h]

/-- Counterexample to C7 as stated: on a detached HEAD the synthetic row's
text is not the bare marker plus 7-character id — the generator prefixes the
three-space display indent (`fmt.Sprintf("   %s", ...)`, line 482). -/
theorem detachedHead_text_counterexample :
    ((generateBranches repoDataDetached localBranchesGroup).get? 0).map
        (fun r => r.value) = some "   HEAD detached at abc1234" ∧
    ((generateBranches repoDataDetached localBranchesGroup).get? 0).map
        (fun r => r.value) ≠
      some ("HEAD detached at " ++ String.mk ("abc1234def5678".data.take 7)) := by
  constructor
  · decide
  · decide

/-- C7 (amended): with branches loaded and HEAD detached, the local-branches
generator emits first a synthetic row whose text is a three-space indent,
then the literal marker "HEAD detached at ", then exactly the first 7
characters of the head oid; it carries the head oid and is numbered 1, and
the named local branches follow in provider order numbered 2, 3, …; when
HEAD is on a named branch the local branches are numbered starting at 1. -/
theorem generateBranches_detached_numbering (repoData : RepoDataState)
    (rl : refList) (hkind : rl.renderedRefType = .RvLocalBranchGroup)
    (hload : repoData.branchesLoading = false) :
    ((repoData.headBranch = none →
        (generateBranches repoData rl).get? 0 =
          some (detachedHeadRenderedRef repoData.headOid) ∧
        (detachedHeadRenderedRef repoData.headOid).value =
          "   " ++ ("HEAD detached at " ++ String.mk (repoData.headOid.data.take 7)) ∧
        (detachedHeadRenderedRef repoData.headOid).oid = some repoData.headOid ∧
        (detachedHeadRenderedRef repoData.headOid).refNum = 1 ∧
        ∀ i, (generateBranches repoData rl).get? (i + 1) =
          (repoData.localBranches.get? i).map (branchRenderedRef .RvLocalBranch (i + 2))) ∧
      (∀ hb, repoData.headBranch = some hb →
        ∀ i, (generateBranches repoData rl).get? i =
          (repoData.localBranches.get? i).map (branchRenderedRef .RvLocalBranch (i + 1)))) := by
  constructor
  · intro hdet
    refine ⟨by simp [generateBranches, hload, hkind, hdet], rfl, rfl, rfl, ?_⟩
    intro i
    have h2 : 2 + i = i + 2 := by omega
    simp [generateBranches, hload, hkind, hdet, numberBranches_getElem?, h2]
  · intro hb hsome i
    have h1 : 1 + i = i + 1 := by omega
    simp [generateBranches, hload, hkind, hsome, numberBranches_getElem?, h1]

/-- Witness for the amended C7: over the detached example repository, the
named branch `feature` follows the synthetic row and is numbered 2. -/
theorem generateBranches_detached_numbering_witness :
    (generateBranches repoDataDetached localBranchesGroup).get? 1 =
      some (branchRenderedRef .RvLocalBranch 2
        { name := "feature", oid := "ffff000011" }) := by
  have h := ((generateBranches_detached_numbering repoDataDetached
    localBranchesGroup rfl rfl).1 rfl).2.2.2.2 0
  simpa using h

theorem numberBranches_kinds :
    ∀ (bs : List Branch) (t : RenderedRefType) (s : Nat) (r : RenderedRef),
      r ∈ numberBranches t s bs → r.renderedRefType = t
  | [], _, _, r, h => by simp [numberBranches] at h
  | b :: bs, t, s, r, h => by
      rw [numberBranches, List.mem_cons] at h
      rcases h with h | h
      · subst h; rfl
      · exact numberBranches_kinds bs t (s + 1) r h

theorem numberTags_kinds :
    ∀ (ts : List Tag) (s : Nat) (r : RenderedRef),
      r ∈ numberTags s ts → r.renderedRefType = .RvTag
  | [], _, r, h => by simp [numberTags] at h
  | t :: ts, s, r, h => by
      rw [numberTags, List.mem_cons] at h
      rcases h with h | h
      · subst h; rfl
      · exact numberTags_kinds ts (s + 1) r h

/-- No generator ever emits a Spacer row: spacers come only from the
regeneration loop itself. -/
theorem runRenderer_not_space (repoData : RepoDataState) (rl : refList)
    (r : RenderedRef) (h : r ∈ runRenderer repoData rl) :
    r.renderedRefType ≠ .RvSpace := by
  rw [runRenderer] at h
  rcases hr : rl.renderer with _ | _ <;> rw [hr] at h
  · rw [generateBranches] at h
    by_cases hl : repoData.branchesLoading = true
    · simp [hl] at h
      subst h; simp [loadingRenderedRef]
    · simp [hl] at h
      by_cases hk : rl.renderedRefType = .RvLocalBranchGroup
      · rw [if_pos hk] at h
        cases hh : repoData.headBranch with
        | none =>
          rw [hh, List.mem_cons] at h
          rcases h with h | h
          · subst h; simp [detachedHeadRenderedRef]
          · rw [numberBranches_kinds _ _ _ _ h]; simp
        | some hb =>
          rw [hh] at h
          rw [numberBranches_kinds _ _ _ _ h]; simp
      · rw [if_neg hk] at h
        rw [numberBranches_kinds _ _ _ _ h]; simp
  · rw [generateTags] at h
    by_cases hl : repoData.tagsLoading = true
    · simp [hl] at h
      subst h; simp [loadingRenderedRef]
    · simp [hl] at h
      rw [numberTags_kinds _ _ _ h]; simp

/-- The regeneration loop appends exactly one Spacer row after every group
but the last, and nothing else contributes Spacer rows. -/
theorem generatedRowsFrom_space_count :
    ∀ (repoData : RepoDataState) (idx : Nat) (rls : List refList),
      rls ≠ [] →
      (∀ rl ∈ rls, isSelectableRenderedRef rl.renderedRefType = true) →
      (generatedRowsFrom repoData idx rls).countP
          (fun r => decide (r.renderedRefType = .RvSpace)) = rls.length - 1
  | _, _, [], h, _ => absurd rfl h
  | repoData, idx, [rl], _, hsel => by
      have hk : rl.renderedRefType ≠ .RvSpace := by
        have := hsel rl (by simp)
        simp [isSelectableRenderedRef] at this
        exact this.1
      have hbody : ∀ r ∈ (if rl.expanded then runRenderer repoData rl else []),
          ¬ (decide (r.renderedRefType = .RvSpace) = true) := by
        intro r hr
        by_cases he : rl.expanded = true
        · rw [if_pos he] at hr
          simp [runRenderer_not_space repoData rl r hr]
        · simp [he] at hr
      rw [generatedRowsFrom, generatedRowsFrom]
      simp [List.countP_cons, List.countP_append, hk, headerRenderedRef,
        List.countP_eq_zero.mpr hbody]
  | repoData, idx, rl :: rl2 :: rest, _, hsel => by
      have hk : rl.renderedRefType ≠ .RvSpace := by
        have := hsel rl (by simp)
        simp [isSelectableRenderedRef] at this
        exact this.1
      have hbody : ∀ r ∈ (if rl.expanded then runRenderer repoData rl else []),
          ¬ (decide (r.renderedRefType = .RvSpace) = true) := by
        intro r hr
        by_cases he : rl.expanded = true
        · rw [if_pos he] at hr
          simp [runRenderer_not_space repoData rl r hr]
        · simp [he] at hr
      have ih := generatedRowsFrom_space_count repoData (idx + 1) (rl2 :: rest)
        (by simp) (fun x hx => hsel x (by simp [hx]))
      rw [generatedRowsFrom]
      simp [List.countP_cons, List.countP_append, hk, headerRenderedRef,
        List.countP_eq_zero.mpr hbody, ih, spacerRenderedRef]

/-- C8: regeneration clears every link and rebuilds from scratch — with no
head filter, the head link collects exactly the generated rows; for each
group, in declaration order, a GroupHeader row is appended whose text marks
expansion with "-" and collapse with "+"; the group's generator runs only
when the group is expanded; exactly one Spacer row separates consecutive
groups (none after the last); and a still-loading backing collection makes
its generator contribute exactly one Loading row and nothing else. -/
theorem regeneration_structure :
    (∀ refView : RefView, refView.renderedRefs.headFilter = none →
        refView.generateRenderedRefs.renderedRefs.headRenderedRefs =
          generatedRows refView.repoData refView.refLists) ∧
    (∀ (idx : Nat) (rl : refList),
        (rl.expanded = true →
          (headerRenderedRef idx rl).value = "  [-] " ++ rl.name) ∧
        (rl.expanded = false →
          (headerRenderedRef idx rl).value = "  [+] " ++ rl.name)) ∧
    (∀ (repoData : RepoDataState) (idx : Nat) (rl : refList) (rest : List refList),
        rl.expanded = true →
        generatedRowsFrom repoData idx (rl :: rest) =
          headerRenderedRef idx rl :: (runRenderer repoData rl ++
            (if rest.isEmpty then [] else [spacerRenderedRef]) ++
            generatedRowsFrom repoData (idx + 1) rest)) ∧
    (∀ (repoData : RepoDataState) (idx : Nat) (rl : refList) (rest : List refList),
        rl.expanded = false →
        generatedRowsFrom repoData idx (rl :: rest) =
          headerRenderedRef idx rl ::
            ((if rest.isEmpty then [] else [spacerRenderedRef]) ++
              generatedRowsFrom repoData (idx + 1) rest)) ∧
    (∀ (repoData : RepoDataState) (rl : refList),
        repoData.branchesLoading = true →
        generateBranches repoData rl = [loadingRenderedRef] ∧
        loadingRenderedRef.renderedRefType = .RvLoading) ∧
    (∀ repoData : RepoDataState, repoData.tagsLoading = true →
        generateTags repoData = [loadingRenderedRef]) ∧
    (∀ (repoData : RepoDataState) (idx : Nat) (rls : List refList),
        rls ≠ [] →
        (∀ rl ∈ rls, isSelectableRenderedRef rl.renderedRefType = true) →
        (generatedRowsFrom repoData idx rls).countP
            (fun r => decide (r.renderedRefType = .RvSpace)) = rls.length - 1) := by
  refine ⟨fun refView h => generateRenderedRefs_head refView h, ?_, ?_, ?_, ?_, ?_,
    generatedRowsFrom_space_count⟩
  · intro idx rl
    constructor
    · intro h; simp [headerRenderedRef, h]
    · intro h; simp [headerRenderedRef, h]
  · intro repoData idx rl rest h
    simp [generatedRowsFrom, h]
  · intro repoData idx rl rest h
    simp [generatedRowsFrom, h]
  · intro repoData rl h
    exact ⟨by simp [generateBranches, h], rfl⟩
  · intro repoData h
    simp [generateTags, h]

/-- Witness for C8: over the example repository the regenerated head link of
a fresh view holds exactly the generated rows. -/
theorem regeneration_structure_witness :
    exampleRefView.generateRenderedRefs.renderedRefs.headRenderedRefs =
      generatedRows repoDataNoLocalBranches initialRefLists :=
  regeneration_structure.1 exampleRefView rfl

theorem string_append_assoc (a b c : String) : a ++ b ++ c = a ++ (b ++ c) := by
  rcases a with ⟨la⟩; rcases b with ⟨lb⟩; rcases c with ⟨lc⟩
  show String.mk (la ++ lb ++ lc) = String.mk (la ++ (lb ++ lc))
  rw [List.append_assoc]

/-- C9: with at least one filter installed the footer is "1 filter applied"
for exactly one filter and "<N> filters applied" for more, regardless of the
selected row; with no filter the footer reflects the selected row's group or
entry counts, with a Loading variant while the relevant backing collection is
still loading ("Branches: Loading...", "Remote Branches: Loading...",
"Tags: Loading"). -/
theorem renderFooter_rules :
    (∀ (refView : RefView) (selectedRenderedRef : RenderedRef),
        refView.renderedRefs.Children = 1 →
        renderFooter refView selectedRenderedRef = "1 filter applied") ∧
    (∀ (refView : RefView) (selectedRenderedRef : RenderedRef),
        1 < refView.renderedRefs.Children →
        renderFooter refView selectedRenderedRef =
          toString refView.renderedRefs.Children ++ " filters applied") ∧
    (∀ (refView : RefView) (selectedRenderedRef : RenderedRef),
        refView.renderedRefs.Children = 0 →
        ((selectedRenderedRef.renderedRefType = .RvLocalBranchGroup →
            (refView.repoData.branchesLoading = true →
              renderFooter refView selectedRenderedRef = "Branches: Loading...") ∧
            (refView.repoData.branchesLoading = false →
              renderFooter refView selectedRenderedRef =
                "Branches: " ++ toString refView.repoData.localBranches.length)) ∧
          (selectedRenderedRef.renderedRefType = .RvRemoteBranchGroup →
            (refView.repoData.branchesLoading = true →
              renderFooter refView selectedRenderedRef =
                "Remote Branches: Loading...") ∧
            (refView.repoData.branchesLoading = false →
              renderFooter refView selectedRenderedRef =
                "Remote Branches: " ++
                  toString refView.repoData.remoteBranches.length)) ∧
          (selectedRenderedRef.renderedRefType = .RvTagGroup →
            (refView.repoData.tagsLoading = true →
              renderFooter refView selectedRenderedRef = "Tags: Loading") ∧
            (refView.repoData.tagsLoading = false →
              renderFooter refView selectedRenderedRef =
                "Tags: " ++ toString refView.repoData.tags.length)) ∧
          (selectedRenderedRef.renderedRefType = .RvLocalBranch →
            renderFooter refView selectedRenderedRef =
              "Branch " ++ toString selectedRenderedRef.refNum ++ " of " ++
                toString refView.repoData.localBranches.length) ∧
          (selectedRenderedRef.renderedRefType = .RvRemoteBranch →
            renderFooter refView selectedRenderedRef =
              "Remote Branch " ++ toString selectedRenderedRef.refNum ++ " of " ++
                toString refView.repoData.remoteBranches.length) ∧
          (selectedRenderedRef.renderedRefType = .RvTag →
            renderFooter refView selectedRenderedRef =
              "Tag " ++ toString selectedRenderedRef.refNum ++ " of " ++
                toString refView.repoData.tags.length))) := by
  refine ⟨?_, ?_, ?_⟩
  · intro refView selectedRenderedRef h
    simp [renderFooter, h]
    decide
  · intro refView selectedRenderedRef h
    have h0 : refView.renderedRefs.Children > 0 := by omega
    have h1 : refView.renderedRefs.Children > 1 := h
    rw [renderFooter]
    simp only [if_pos h0, if_pos h1]
    rw [string_append_assoc, string_append_assoc]
    congr 1
  · intro refView selectedRenderedRef h
    refine ⟨?_, ?_, ?_, ?_, ?_, ?_⟩ <;> intro hk
    · exact ⟨fun hl => by simp [renderFooter, h, hk, hl],
        fun hl => by simp [renderFooter, h, hk, hl]⟩
    · exact ⟨fun hl => by simp [renderFooter, h, hk, hl],
        fun hl => by simp [renderFooter, h, hk, hl]⟩
    · exact ⟨fun hl => by simp [renderFooter, h, hk, hl],
        fun hl => by simp [renderFooter, h, hk, hl]⟩
    · simp [renderFooter, h, hk, string_append_assoc]
    · simp [renderFooter, h, hk, string_append_assoc]
    · simp [renderFooter, h, hk, string_append_assoc]

/-- Witness for C9: with one installed filter the footer reads
"1 filter applied" even when the selected row is a Spacer. -/
theorem renderFooter_rules_witness :
    renderFooter exampleFilteredRefView spacerRenderedRef = "1 filter applied" :=
  renderFooter_rules.1 exampleFilteredRefView spacerRenderedRef rfl

/-- Witness for C6: a call with no arguments is rejected with an error, and a
successful compile over the empty example view installs the filter and, the
row count being unchanged (no rows generated yet), reports no effect. -/
theorem addRefFilter_errors_and_status_witness :
    (∃ m, (addRefFilter exampleCompile exampleRefView []).2 = CommandOutcome.err m) ∧
    (addRefFilter exampleCompile exampleRefView
        [CommandArg.str "branch"]).2 = CommandOutcome.status "Filter had no effect" :=
  ⟨(addRefFilter_errors_and_status.1 exampleCompile exampleRefView []).mpr (Or.inl rfl),
   ((addRefFilter_errors_and_status.2.2 exampleCompile exampleRefView "branch" []
      rfl).2.2).mpr (by decide)⟩

end GrvRefView
